import Mathlib

/-!
Verification development for the concurrent node store
(src/src/server/ua_nodestore_concurrent.c) and the TCP network layer
(src/plugins/ua_network_tcp.c).

The C code is shallowly embedded: machine integers are Nat with explicit
reductions modulo a power of two where the C type wraps, the hash table is a
list of published nodes, and OS calls (malloc, recv, send) are parameters
describing the outcome of the call.
-/

/-- Node class tag. Modelled from the spec: the class tag is drawn from the
closed set Object, Variable, Method, ObjectType, VariableType, ReferenceType,
DataType, View (the UA_NodeClass declaration lives in a header that is not
among the provided sources; the nodesize switch in the C file enumerates
exactly these eight cases). -/
inductive UA_NodeClass
  | OBJECT
  | VARIABLE
  | METHOD
  | OBJECTTYPE
  | VARIABLETYPE
  | REFERENCETYPE
  | DATATYPE
  | VIEW
deriving DecidableEq, Repr

/-- NodeId identifier variants. Modelled from the spec: kind is
Numeric(u32), String(bytes), Guid(16 B) or Opaque(bytes); the source file
era names the opaque kind BYTESTRING. Byte payloads are lists of byte
values. -/
inductive UA_NodeIdIdentifier
  | numeric (n : Nat)
  | string (s : List Nat)
  | guid (g : List Nat)
  | bytestring (b : List Nat)
deriving DecidableEq, Repr

/-- Tagged node identifier with a u16 namespace index. -/
structure UA_NodeId where
  namespaceIndex : Nat
  identifier : UA_NodeIdIdentifier
deriving DecidableEq, Repr

/-- Modelled from the spec: Null denotes an unset identifier
(namespace 0, numeric 0). -/
def UA_NodeId_isNull (n : UA_NodeId) : Bool :=
  n == ⟨0, UA_NodeIdIdentifier.numeric 0⟩

/-- Modelled from the spec: NodeId equality is structural. -/
def UA_NodeId_equal (a b : UA_NodeId) : Bool :=
  a == b

/-- A node as the store sees it: an identifier, a class tag, and an
otherwise opaque payload. -/
structure UA_Node where
  nodeId : UA_NodeId
  nodeClass : UA_NodeClass
  payload : Nat
deriving DecidableEq, Repr

/-- The status codes returned by the embedded operations. -/
inductive UA_StatusCode
  | GOOD
  | BADNODEIDEXISTS
  | BADNODEIDUNKNOWN
  | BADOUTOFMEMORY
  | BADINTERNALERROR
  | BADCONNECTIONCLOSED
  | BADCOMMUNICATIONERROR
deriving DecidableEq, Repr

/-! ## Hash-table lookup keys

cds_lfht_lookup receives an untyped key pointer and forwards it to the
compare callback, which casts it to a pointer to UA_NodeId.
UA_NodeStore_get passes nodeid (a pointer to the NodeId) while
UA_NodeStore_remove passes the address of its own pointer variable
(a pointer to a pointer).  We keep the two shapes apart: dereferencing a
key of the second shape reads the bytes of a stack address, which never
form the NodeId value the pointer refers to, so the comparison against a
stored NodeId cannot succeed. -/
inductive LookupKey
  | nodeIdPtr (k : UA_NodeId)
  | nodeIdPtrPtr (k : UA_NodeId)
deriving DecidableEq, Repr

/-- The compare callback handed to the hash table: it reinterprets the key
pointer as a UA_NodeId pointer and tests UA_NodeId_equal against the
entry's id.  A nodeIdPtrPtr key dereferences to pointer bytes, not to the
NodeId, so it matches no stored id. -/
def compare (entryId : UA_NodeId) (orig : LookupKey) : Bool :=
  match orig with
  | LookupKey.nodeIdPtr k => UA_NodeId_equal entryId k
  | LookupKey.nodeIdPtrPtr _ => false

/-- cds_lfht_lookup: find the first entry whose id matches the key under
the compare callback. -/
def tableLookup (table : List UA_Node) (key : LookupKey) : Option UA_Node :=
  table.find? (fun e => compare e.nodeId key)

/-- UA_NodeStore_get: look the id up with a pointer-to-NodeId key and
return the node (the refcount increment is modelled by the entry state
machine below). -/
def UA_NodeStore_get (table : List UA_Node) (nodeid : UA_NodeId) : Option UA_Node :=
  tableLookup table (LookupKey.nodeIdPtr nodeid)

/-- cds_lfht_del on the node found by a lookup: drop the first entry the
key matches. -/
def removeFirst (table : List UA_Node) (key : LookupKey) : List UA_Node :=
  match table with
  | [] => []
  | e :: rest => if compare e.nodeId key then rest else e :: removeFirst rest key

/-- Result of UA_NodeStore_remove: the status, the reachable table
afterwards, and the entries handed to call_rcu with the markDead
callback. -/
structure RemoveResult where
  status : UA_StatusCode
  store : List UA_Node
  enqueuedDead : List UA_Node
deriving DecidableEq, Repr

/-- UA_NodeStore_remove.  The C code passes the address of its nodeid
pointer variable as the lookup key, so the lookup uses a
nodeIdPtrPtr key. -/
def UA_NodeStore_remove (table : List UA_Node) (nodeid : UA_NodeId) : RemoveResult :=
  match tableLookup table (LookupKey.nodeIdPtrPtr nodeid) with
  | none => ⟨UA_StatusCode.BADNODEIDUNKNOWN, table, []⟩
  | some e => ⟨UA_StatusCode.GOOD, removeFirst table (LookupKey.nodeIdPtrPtr nodeid), [e]⟩

/-! ## Insert and replace -/

/-- Wrap-around modulus of the u32 numeric identifier field. -/
def UINT32_MOD : Nat := 4294967296

/-- The probing loop of the Null-id branch of UA_NodeStore_insert: starting
from the current candidate numeric identifier, add identifier * 2654435761
(truncated to u32) until the id (namespace 1, numeric) collides with no
entry of the table.  The C loop has no exit on failure; running out of fuel
stands for the loop still spinning. -/
def probeNullId (table : List UA_Node) (identifier : Nat) : Nat → Nat → Option Nat
  | 0, _ => none
  | fuel + 1, cur =>
    if table.any (fun e => UA_NodeId_equal e.nodeId ⟨1, UA_NodeIdIdentifier.numeric cur⟩) then
      probeNullId table identifier fuel ((cur + identifier * 2654435761) % UINT32_MOD)
    else
      some cur

/-- Where the caller's in-out node pointer ends up after insert or
replace. -/
inductive OutPtr
  | managed (n : UA_Node)
  | null
  | untouched
deriving DecidableEq, Repr

/-- Result of UA_NodeStore_insert and UA_NodeStore_replace: status, the
reachable table afterwards, the caller's node pointer afterwards, whether
the caller-supplied node memory was freed, the published store-managed
copy, and the predecessors handed to call_rcu with markDead. -/
structure InsertResult where
  status : UA_StatusCode
  store : List UA_Node
  out : OutPtr
  callerFreed : Bool
  published : Option UA_Node
  enqueuedDead : List UA_Node
deriving DecidableEq, Repr

/-- UA_NodeStore_insert.  The nodesize switch covers every UA_NodeClass
value, so its BADINTERNALERROR default is unreachable; allocOk is the
outcome of UA_alloc for the fresh entry.  A non-Null id is added with
cds_lfht_add_unique (fails if an equal id is reachable); a Null id is
synthesized in namespace 1 from the node count with multiplicative
probing.  The result is none when the probing loop has not terminated
within the given fuel. -/
def UA_NodeStore_insert (table : List UA_Node) (node : UA_Node) (getManaged : Bool)
    (allocOk : Bool) (fuel : Nat) : Option InsertResult :=
  if !allocOk then
    some ⟨UA_StatusCode.BADOUTOFMEMORY, table, OutPtr.untouched, false, none, []⟩
  else if !(UA_NodeId_isNull node.nodeId) then
    if (tableLookup table (LookupKey.nodeIdPtr node.nodeId)).isSome then
      some ⟨UA_StatusCode.BADNODEIDEXISTS, table, OutPtr.untouched, false, none, []⟩
    else
      some ⟨UA_StatusCode.GOOD, table ++ [node],
        (if getManaged then OutPtr.managed node else OutPtr.null), true, some node, []⟩
  else
    let identifier := table.length + 1
    match probeNullId table identifier fuel (identifier % UINT32_MOD) with
    | none => none
    | some num =>
      let published : UA_Node := { node with nodeId := ⟨1, UA_NodeIdIdentifier.numeric num⟩ }
      some ⟨UA_StatusCode.GOOD, table ++ [published],
        (if getManaged then OutPtr.managed published else OutPtr.null), true, some published, []⟩

/-- cds_lfht_replace on the entry found by the lookup: swap the first entry
whose id equals k for the fresh one. -/
def replaceFirst (table : List UA_Node) (k : UA_NodeId) (fresh : UA_Node) : List UA_Node :=
  match table with
  | [] => []
  | e :: rest =>
    if UA_NodeId_equal e.nodeId k then fresh :: rest else e :: replaceFirst rest k fresh

/-- UA_NodeStore_replace: look up the predecessor sharing the node's id
(the key here is a correct pointer to the NodeId), swap the fresh entry in
atomically, and hand the predecessor to call_rcu with markDead; fail with
BADNODEIDUNKNOWN when no predecessor exists. -/
def UA_NodeStore_replace (table : List UA_Node) (node : UA_Node) (getManaged : Bool)
    (allocOk : Bool) : InsertResult :=
  if !allocOk then
    ⟨UA_StatusCode.BADOUTOFMEMORY, table, OutPtr.untouched, false, none, []⟩
  else
    match tableLookup table (LookupKey.nodeIdPtr node.nodeId) with
    | some pred =>
      ⟨UA_StatusCode.GOOD, replaceFirst table node.nodeId node,
        (if getManaged then OutPtr.managed node else OutPtr.null), true, some node, [pred]⟩
    | none =>
      ⟨UA_StatusCode.BADNODEIDUNKNOWN, table, OutPtr.untouched, false, none, []⟩

/-! ## Entry refcount protocol

One UA_NodeStore_Entry's 16-bit refcount word holds the alive bit (bit 15)
and a 15-bit reader count.  The operations below follow the C code at word
level: get increments the word, release is uatomic_sub_return followed by a
free when the returned word is zero, unlink stands for the removal of the
entry from the table by remove or replace (which enqueues markDead), and
markDead clears the alive bit and frees when it then reads zero. -/

/-- Alive bit of the refcount word. -/
def ALIVE_BIT : Nat := 32768

/-- State of one entry: the refcount word, whether the entry has been
unlinked from the table, whether markDead has run, and how many times the
entry's memory has been freed. -/
structure EntryState where
  refcount : Nat
  unlinked : Bool
  deadDone : Bool
  freedCount : Nat
deriving DecidableEq, Repr

/-- Entry state right after insert published it: refcount is ALIVE_BIT,
plus one when the caller asked for a managed handle. -/
def initialEntry (getManaged : Bool) : EntryState :=
  ⟨(if getManaged then ALIVE_BIT + 1 else ALIVE_BIT), false, false, 0⟩

/-- The operations that touch one entry's refcount word. -/
inductive EntryOp
  | get
  | release
  | unlink
  | markDead
deriving DecidableEq, Repr

/-- One atomic operation on the entry, as the C code performs it.
get: uatomic_inc on the u16 word.  release: uatomic_sub_return; free when
the returned word is zero.  unlink: cds_lfht_del or cds_lfht_replace took
the entry out of the table and enqueued markDead.  markDead: uatomic_and
with the complement of ALIVE_BIT, then free when the word reads zero. -/
def entryStep (s : EntryState) (op : EntryOp) : EntryState :=
  match op with
  | EntryOp.get => { s with refcount := (s.refcount + 1) % 65536 }
  | EntryOp.release =>
    let rc := (s.refcount + 65535) % 65536
    if rc > 0 then { s with refcount := rc }
    else { s with refcount := rc, freedCount := s.freedCount + 1 }
  | EntryOp.unlink => { s with unlinked := true }
  | EntryOp.markDead =>
    let rc := s.refcount % 32768
    if rc > 0 then { s with refcount := rc, deadDone := true }
    else { s with refcount := rc, deadDone := true, freedCount := s.freedCount + 1 }

/-- Which operations a sequential history may perform next: get only finds
the entry while it is in the table (and the 15-bit reader count must not
be exhausted, per the spec a bug otherwise), release requires an
outstanding reader, unlink happens once, and markDead runs once, after the
unlink that enqueued it. -/
def opAllowed (s : EntryState) (op : EntryOp) : Bool :=
  match op with
  | EntryOp.get => !s.unlinked && s.refcount % 32768 < 32767
  | EntryOp.release => s.refcount % 32768 > 0
  | EntryOp.unlink => !s.unlinked
  | EntryOp.markDead => s.unlinked && !s.deadDone

/-- A history of operations is valid from a state when every operation is
allowed in the state it runs in. -/
def validFrom : EntryState → List EntryOp → Bool
  | _, [] => true
  | s, op :: ops => opAllowed s op && validFrom (entryStep s op) ops

/-- Run a history of operations on an entry. -/
def runOps (s : EntryState) (ops : List EntryOp) : EntryState :=
  ops.foldl entryStep s

/-! ## TCP network layer -/

/-- The errno values the network code distinguishes. -/
inductive Errno
  | EINTR
  | EAGAIN
  | EWOULDBLOCK
  | other
deriving DecidableEq, Repr

/-- Outcome of one recv call: ok n is a return of n (zero means the peer
closed), fail e is a return of -1 with errno e. -/
inductive RecvResult
  | ok (n : Nat)
  | fail (e : Errno)
deriving DecidableEq, Repr

/-- What socket_recv leaves behind: its status code, the response buffer
(none when the byte string was deleted or never filled), and whether
socket_close ran on the connection. -/
structure SocketRecvResult where
  status : UA_StatusCode
  buf : Option Nat
  socketClosed : Bool
deriving DecidableEq, Repr

/-- socket_recv (non-Cygwin branch).  allocOk is the outcome of the malloc
of the receive buffer.  On a -1 return the retry test is the C macro
TEST_RETRY, i.e. the expression
(errno == EINTR || (timeout > 0) ? 0 : (errno == EAGAIN || errno == EWOULDBLOCK)),
in which the ternary binds after the first disjunction; when it yields
retry the function returns GOOD with the response already deleted. -/
def socket_recv (recvBufferSize : Nat) (allocOk : Bool) (timeout : Nat)
    (r : RecvResult) : SocketRecvResult :=
  if !allocOk then
    ⟨UA_StatusCode.BADOUTOFMEMORY, none, false⟩
  else
    match r with
    | RecvResult.ok 0 => ⟨UA_StatusCode.BADCONNECTIONCLOSED, none, true⟩
    | RecvResult.ok (n + 1) => ⟨UA_StatusCode.GOOD, some (min (n + 1) recvBufferSize), false⟩
    | RecvResult.fail e =>
      if (e == Errno.EINTR || timeout > 0) then
        ⟨UA_StatusCode.BADCONNECTIONCLOSED, none, true⟩
      else if (e == Errno.EAGAIN || e == Errno.EWOULDBLOCK) then
        ⟨UA_StatusCode.GOOD, none, false⟩
      else
        ⟨UA_StatusCode.BADCONNECTIONCLOSED, none, true⟩

/-- The jobs the network layer emits; connections are named by their
identity (an allocation id), a message buffer of none is the deleted null
byte string. -/
inductive UA_Job
  | binaryMessage (conn : Nat) (msg : Option Nat)
  | detachConnection (conn : Nat)
  | delayedFree (conn : Nat)
deriving DecidableEq, Repr

/-- What one tracked connection's slice of a getJobs tick produces: the
jobs emitted for it, whether it stays in the tracking table, and whether
its socket was closed. -/
structure ConnStepResult where
  jobs : List UA_Job
  keepInTable : Bool
  socketClosed : Bool
deriving DecidableEq, Repr

/-- The per-connection body of the read loop of
ServerNetworkLayerTCP_getJobs: call socket_recv with timeout 0; on GOOD
emit a binaryMessage job carrying whatever buffer socket_recv left; on
BADCONNECTIONCLOSED emit detachConnection then delayedFree and drop the
connection from the tracking table (swap with last); on any other status
emit nothing and keep the connection. -/
def getJobsConnStep (conn : Nat) (recvBufferSize : Nat) (allocOk : Bool)
    (r : RecvResult) : ConnStepResult :=
  let res := socket_recv recvBufferSize allocOk 0 r
  if res.status == UA_StatusCode.GOOD then
    ⟨[UA_Job.binaryMessage conn res.buf], true, res.socketClosed⟩
  else if res.status == UA_StatusCode.BADCONNECTIONCLOSED then
    ⟨[UA_Job.detachConnection conn, UA_Job.delayedFree conn], false, res.socketClosed⟩
  else
    ⟨[], true, res.socketClosed⟩

/-- Outcome of one send call inside socket_write: sent n is a return of
n (zero or more bytes accepted), err e is a return of -1 with errno e. -/
inductive SendResult
  | sent (n : Nat)
  | err (e : Errno)
deriving DecidableEq, Repr

/-- How a socket_write run ended: good is a full write, closed is the
non-retriable error path, pending means the given send outcomes were
exhausted with the loop still running. -/
inductive WriteOutcome
  | good
  | closed
  | pending
deriving DecidableEq, Repr

/-- What socket_write leaves behind: the outcome, the total bytes handed
to the kernel, whether the connection state was set to CLOSED, and whether
the byte string buffer was freed. -/
structure SocketWriteResult where
  outcome : WriteOutcome
  written : Nat
  stateClosed : Bool
  bufFreed : Bool
deriving DecidableEq, Repr

/-- The nested send loop of socket_write, driven by the list of send
outcomes: a non-retriable errno closes the connection, frees the buffer
and returns BADCONNECTIONCLOSED; EINTR and EAGAIN retry; a nonnegative
return adds to nWritten and the loop ends once nWritten reaches the buffer
length, freeing the buffer and returning GOOD. -/
def socket_write_loop (len : Nat) : Nat → List SendResult → SocketWriteResult
  | nWritten, [] => ⟨WriteOutcome.pending, nWritten, false, false⟩
  | nWritten, SendResult.sent n :: rest =>
    let nw := nWritten + n
    if nw < len then socket_write_loop len nw rest
    else ⟨WriteOutcome.good, nw, false, true⟩
  | nWritten, SendResult.err e :: rest =>
    if e == Errno.EINTR || e == Errno.EAGAIN then socket_write_loop len nWritten rest
    else ⟨WriteOutcome.closed, nWritten, true, true⟩

/-- socket_write on a buffer of len bytes; the do-while shape performs at
least one send even for an empty buffer. -/
def socket_write (len : Nat) (sends : List SendResult) : SocketWriteResult :=
  socket_write_loop len 0 sends

/-- A list of send outcomes is kernel-consistent for a buffer of len bytes
when each successful send accepts at most the bytes that were asked of it
(buf.length - nWritten). -/
def validSendTrace (len : Nat) : Nat → List SendResult → Bool
  | _, [] => true
  | nWritten, SendResult.sent n :: rest =>
    decide (n ≤ len - nWritten) && validSendTrace len (nWritten + n) rest
  | nWritten, SendResult.err _ :: rest => validSendTrace len nWritten rest

/-- Every element of a send trace that is an error is a retriable one
(EINTR or EAGAIN). -/
def retriableOnly : List SendResult → Bool
  | [] => true
  | SendResult.sent _ :: rest => retriableOnly rest
  | SendResult.err e :: rest =>
    (e == Errno.EINTR || e == Errno.EAGAIN) && retriableOnly rest

/-- ServerNetworkLayerGetSendBuffer: refuse a length above the remote
receive buffer size before allocating; otherwise allocate length bytes
(allocOk is the outcome of the allocation). -/
def ServerNetworkLayerGetSendBuffer (remoteRecvBufferSize : Nat) (length : Nat)
    (allocOk : Bool) : UA_StatusCode × Option Nat :=
  if length > remoteRecvBufferSize then
    (UA_StatusCode.BADCOMMUNICATIONERROR, none)
  else if allocOk then
    (UA_StatusCode.GOOD, some length)
  else
    (UA_StatusCode.BADOUTOFMEMORY, none)

/-- What ServerNetworkLayerTCP_stop leaves behind: the job batch and
whether the listen socket was shut down and closed. -/
structure StopResult where
  jobs : List UA_Job
  listenClosed : Bool
deriving DecidableEq, Repr

/-- ServerNetworkLayerTCP_stop: shut down and close the listen socket,
then for every tracked connection (allocOk is the outcome of the malloc of
the job array; on failure zero jobs are returned, the listen socket is
closed all the same) emit a detachConnection job directly followed by a
delayedFree job for the same connection. -/
def ServerNetworkLayerTCP_stop (mappings : List Nat) (allocOk : Bool) : StopResult :=
  if !allocOk then ⟨[], true⟩
  else ⟨mappings.flatMap (fun c => [UA_Job.detachConnection c, UA_Job.delayedFree c]), true⟩

/-! ## Helper lemmas -/

/-- A nodeIdPtrPtr key matches no entry, so the lookup it drives returns
none on every table. -/
lemma tableLookup_ptrPtr_none (table : List UA_Node) (k : UA_NodeId) :
    tableLookup table (LookupKey.nodeIdPtrPtr k) = none := by
  induction table with
  | nil => rfl
  | cons e rest ih => exact ih

/-- C1: the claim says that after a successful insert of a node with
NodeId k that is still reachable, remove k succeeds, removes the table
entry and hands it to the reclamation queue, and a following get k
returns None.  The code instead passes the address of its nodeid pointer
variable as the lookup key, so the lookup never matches: remove returns
BADNODEIDUNKNOWN, the table is unchanged, nothing is handed to the
reclamation queue — and get k still returns the entry. -/
theorem C1_remove_code_bug (table : List UA_Node) (k : UA_NodeId) :
    UA_NodeStore_remove table k
      = ⟨UA_StatusCode.BADNODEIDUNKNOWN, table, []⟩ ∧
    UA_NodeStore_get (UA_NodeStore_remove table k).store k
      = UA_NodeStore_get table k := by
  unfold UA_NodeStore_remove
  rw [tableLookup_ptrPtr_none]
  exact ⟨rfl, rfl⟩

/-- Concrete run of the C1 divergence: in a store where insert of NodeId
(1, numeric 42) succeeded, remove of that id fails with BADNODEIDUNKNOWN
and get still returns the node. -/
theorem C1_remove_code_bug_concrete :
    UA_NodeStore_insert [] ⟨⟨1, UA_NodeIdIdentifier.numeric 42⟩, UA_NodeClass.OBJECT, 0⟩
        false true 1
      = some ⟨UA_StatusCode.GOOD,
          [⟨⟨1, UA_NodeIdIdentifier.numeric 42⟩, UA_NodeClass.OBJECT, 0⟩],
          OutPtr.null, true,
          some ⟨⟨1, UA_NodeIdIdentifier.numeric 42⟩, UA_NodeClass.OBJECT, 0⟩, []⟩ ∧
    UA_NodeStore_remove [⟨⟨1, UA_NodeIdIdentifier.numeric 42⟩, UA_NodeClass.OBJECT, 0⟩]
        ⟨1, UA_NodeIdIdentifier.numeric 42⟩
      = ⟨UA_StatusCode.BADNODEIDUNKNOWN,
          [⟨⟨1, UA_NodeIdIdentifier.numeric 42⟩, UA_NodeClass.OBJECT, 0⟩], []⟩ ∧
    UA_NodeStore_get [⟨⟨1, UA_NodeIdIdentifier.numeric 42⟩, UA_NodeClass.OBJECT, 0⟩]
        ⟨1, UA_NodeIdIdentifier.numeric 42⟩
      = some ⟨⟨1, UA_NodeIdIdentifier.numeric 42⟩, UA_NodeClass.OBJECT, 0⟩ :=
  ⟨by decide, by decide, by decide⟩

/-- C2: the claim says that on a zero-timeout recv failing with EAGAIN,
EWOULDBLOCK or EINTR no job is emitted and the connection stays tracked.
On the code, the TEST_RETRY macro's ternary binds after the first
disjunction, so EINTR with timeout 0 is NOT retried: the socket is closed
and the tick emits a detachConnection and a delayedFree job, dropping the
connection from the tracking table.  EAGAIN and EWOULDBLOCK are retried
inside socket_recv, which returns GOOD with the response buffer already
deleted — so the tick emits a binaryMessage job carrying an empty buffer
(the connection does stay tracked). -/
theorem C2_transient_recv_code_bug :
    getJobsConnStep 7 1024 true (RecvResult.fail Errno.EINTR)
      = ⟨[UA_Job.detachConnection 7, UA_Job.delayedFree 7], false, true⟩ ∧
    getJobsConnStep 7 1024 true (RecvResult.fail Errno.EAGAIN)
      = ⟨[UA_Job.binaryMessage 7 none], true, false⟩ ∧
    getJobsConnStep 7 1024 true (RecvResult.fail Errno.EWOULDBLOCK)
      = ⟨[UA_Job.binaryMessage 7 none], true, false⟩ := by
  decide

/-- C7: getSendBuffer refuses a length above remoteConf.recvBufferSize
with BADCOMMUNICATIONERROR before allocating anything; a length within the
bound allocates a buffer of exactly that length and returns GOOD. -/
theorem C7_getSendBuffer (limit len : Nat) (allocOk : Bool) :
    (limit < len →
      ServerNetworkLayerGetSendBuffer limit len allocOk
        = (UA_StatusCode.BADCOMMUNICATIONERROR, none)) ∧
    (len ≤ limit → allocOk = true →
      ServerNetworkLayerGetSendBuffer limit len allocOk
        = (UA_StatusCode.GOOD, some len)) := by
  constructor
  · intro h
    simp [ServerNetworkLayerGetSendBuffer, h]
  · intro h ha
    subst ha
    simp [ServerNetworkLayerGetSendBuffer, Nat.not_lt.mpr h]

/-- C7 witness: with a remote receive buffer bound of 8, a request of 9
bytes is refused without allocation and a request of 8 bytes allocates 8
bytes and succeeds. -/
theorem C7_getSendBuffer_witness :
    ServerNetworkLayerGetSendBuffer 8 9 true
      = (UA_StatusCode.BADCOMMUNICATIONERROR, none) ∧
    ServerNetworkLayerGetSendBuffer 8 8 true
      = (UA_StatusCode.GOOD, some 8) :=
  ⟨(C7_getSendBuffer 8 9 true).1 (by decide),
   (C7_getSendBuffer 8 8 true).2 (by decide) rfl⟩

/-- The job batch built by stop has two jobs per tracked connection. -/
lemma stop_jobs_length (mappings : List Nat) :
    (mappings.flatMap
        (fun c => [UA_Job.detachConnection c, UA_Job.delayedFree c])).length
      = 2 * mappings.length := by
  induction mappings with
  | nil => rfl
  | cons c rest ih =>
    simp only [List.flatMap_cons, List.length_append, List.length_cons, ih,
      List.length_nil, List.length_cons]
    omega

/-- In the job batch built by stop, the pair of jobs at positions 2i and
2i+1 belongs to the i-th tracked connection. -/
lemma stop_jobs_pairs (mappings : List Nat) (i : Nat) (h : i < mappings.length) :
    (mappings.flatMap
        (fun c => [UA_Job.detachConnection c, UA_Job.delayedFree c]))[2 * i]?
      = some (UA_Job.detachConnection mappings[i]) ∧
    (mappings.flatMap
        (fun c => [UA_Job.detachConnection c, UA_Job.delayedFree c]))[2 * i + 1]?
      = some (UA_Job.delayedFree mappings[i]) := by
  induction mappings generalizing i with
  | nil => exact absurd h (Nat.not_lt_zero i)
  | cons c rest ih =>
    cases i with
    | zero => simp [List.flatMap_cons]
    | succ j =>
      have hj : j < rest.length := Nat.lt_of_succ_lt_succ h
      have h2 : 2 * (j + 1) = 2 * j + 1 + 1 := by omega
      rw [h2]
      simpa [List.flatMap_cons] using ih j hj

/-- C9: stop closes the listen socket and, when the job array allocation
succeeds, returns exactly 2*N jobs for the N tracked connections, arranged
per tracked connection as a detachConnection job immediately followed by a
delayedFree job for the same connection. -/
theorem C9_stop_jobs (mappings : List Nat) (i : Nat) (h : i < mappings.length) :
    (ServerNetworkLayerTCP_stop mappings true).listenClosed = true ∧
    (ServerNetworkLayerTCP_stop mappings true).jobs.length = 2 * mappings.length ∧
    (ServerNetworkLayerTCP_stop mappings true).jobs[2 * i]?
      = some (UA_Job.detachConnection mappings[i]) ∧
    (ServerNetworkLayerTCP_stop mappings true).jobs[2 * i + 1]?
      = some (UA_Job.delayedFree mappings[i]) := by
  refine ⟨rfl, ?_, ?_, ?_⟩
  · exact stop_jobs_length mappings
  · exact (stop_jobs_pairs mappings i h).1
  · exact (stop_jobs_pairs mappings i h).2

/-- C9 witness: stopping with two tracked connections yields four jobs in
detach, delayed-free pairs and the listen socket closed. -/
theorem C9_stop_jobs_witness :
    (0 : Nat) < ([4, 9] : List Nat).length ∧
    ((ServerNetworkLayerTCP_stop [4, 9] true).listenClosed = true ∧
      (ServerNetworkLayerTCP_stop [4, 9] true).jobs.length = 2 * ([4, 9] : List Nat).length ∧
      (ServerNetworkLayerTCP_stop [4, 9] true).jobs[2 * 0]?
        = some (UA_Job.detachConnection ([4, 9] : List Nat)[0]) ∧
      (ServerNetworkLayerTCP_stop [4, 9] true).jobs[2 * 0 + 1]?
        = some (UA_Job.delayedFree ([4, 9] : List Nat)[0])) :=
  ⟨by decide, C9_stop_jobs [4, 9] 0 (by decide)⟩

/-- Unfolding equation for the get step. -/
lemma entryStep_get (s : EntryState) :
    entryStep s EntryOp.get = { s with refcount := (s.refcount + 1) % 65536 } := rfl

/-- Unfolding equation for the release step. -/
lemma entryStep_release (s : EntryState) :
    entryStep s EntryOp.release =
      (if (s.refcount + 65535) % 65536 > 0 then
        { s with refcount := (s.refcount + 65535) % 65536 }
      else
        { s with refcount := (s.refcount + 65535) % 65536,
                 freedCount := s.freedCount + 1 }) := rfl

/-- Unfolding equation for the unlink step. -/
lemma entryStep_unlink (s : EntryState) :
    entryStep s EntryOp.unlink = { s with unlinked := true } := rfl

/-- Unfolding equation for the markDead step. -/
lemma entryStep_markDead (s : EntryState) :
    entryStep s EntryOp.markDead =
      (if s.refcount % 32768 > 0 then
        { s with refcount := s.refcount % 32768, deadDone := true }
      else
        { s with refcount := s.refcount % 32768, deadDone := true,
                 freedCount := s.freedCount + 1 }) := rfl

/-- Invariant of one entry along a valid history: while markDead has not
run, the word is the alive bit plus a 15-bit reader count and nothing has
been freed; after markDead, the word is the bare reader count, the entry
is off the table, and the memory has been freed exactly when the reader
count is zero. -/
def EntryInv (s : EntryState) : Prop :=
  ∃ r : Nat, r ≤ 32767 ∧
    (s.deadDone = false → s.refcount = 32768 + r ∧ s.freedCount = 0) ∧
    (s.deadDone = true → s.refcount = r ∧ s.unlinked = true ∧
      (r = 0 → s.freedCount = 1) ∧ (r ≠ 0 → s.freedCount = 0))

/-- The invariant holds for a freshly inserted entry. -/
lemma entryInv_initial (g : Bool) : EntryInv (initialEntry g) := by
  refine ⟨if g then 1 else 0, ?_, ?_, ?_⟩ <;> cases g <;>
    simp [initialEntry, ALIVE_BIT]

/-- Every allowed operation preserves the entry invariant. -/
lemma entryInv_step (s : EntryState) (op : EntryOp)
    (hs : EntryInv s) (hop : opAllowed s op = true) : EntryInv (entryStep s op) := by
  obtain ⟨r, hr, hinvf, hinvt⟩ := hs
  cases op with
  | get =>
    simp only [opAllowed, Bool.and_eq_true, Bool.not_eq_true',
      decide_eq_true_eq] at hop
    obtain ⟨hu, hlt⟩ := hop
    have hdd : s.deadDone = false := by
      cases hd2 : s.deadDone
      · rfl
      · exact absurd ((hinvt hd2).2.1) (by simp [hu])
    obtain ⟨hrc, hf0⟩ := hinvf hdd
    rw [entryStep_get]
    refine ⟨r + 1, by omega, ?_, ?_⟩
    · intro _
      dsimp only
      constructor
      · omega
      · exact hf0
    · intro hcontra
      dsimp only at hcontra
      rw [hdd] at hcontra
      exact absurd hcontra (by simp)
  | release =>
    simp only [opAllowed, decide_eq_true_eq] at hop
    rw [entryStep_release]
    cases hdd : s.deadDone with
    | false =>
      obtain ⟨hrc, hf0⟩ := hinvf hdd
      have hrpos : 0 < r := by omega
      have hcond : (s.refcount + 65535) % 65536 > 0 := by omega
      rw [if_pos hcond]
      refine ⟨r - 1, by omega, ?_, ?_⟩
      · intro _
        dsimp only
        constructor
        · omega
        · exact hf0
      · intro hcontra
        exact absurd hcontra (by simp)
    | true =>
      obtain ⟨hrc, hul, hf1, hf0⟩ := hinvt hdd
      have hrpos : 0 < r := by omega
      have hfreed : s.freedCount = 0 := hf0 (by omega)
      rcases Nat.lt_or_ge 1 r with h1r | h1r
      · have hcond : (s.refcount + 65535) % 65536 > 0 := by omega
        rw [if_pos hcond]
        refine ⟨r - 1, by omega, ?_, ?_⟩
        · intro hcontra
          exact absurd hcontra (by simp)
        · intro _
          dsimp only
          refine ⟨by omega, hul, ?_, ?_⟩
          · intro h0
            omega
          · intro _
            exact hfreed
      · have hre : r = 1 := by omega
        have hcond : ¬ ((s.refcount + 65535) % 65536 > 0) := by omega
        rw [if_neg hcond]
        refine ⟨0, by omega, ?_, ?_⟩
        · intro hcontra
          exact absurd hcontra (by simp)
        · intro _
          dsimp only
          refine ⟨by omega, hul, ?_, ?_⟩
          · intro _
            omega
          · intro h0
            exact absurd rfl h0
  | unlink =>
    rw [entryStep_unlink]
    refine ⟨r, hr, ?_, ?_⟩
    · intro hdf
      dsimp only at hdf ⊢
      exact hinvf hdf
    · intro hdt
      dsimp only at hdt ⊢
      obtain ⟨hrc, -, hf1, hf0⟩ := hinvt hdt
      exact ⟨hrc, rfl, hf1, hf0⟩
  | markDead =>
    simp only [opAllowed, Bool.and_eq_true, Bool.not_eq_true'] at hop
    obtain ⟨hul, hdd⟩ := hop
    obtain ⟨hrc, hf0⟩ := hinvf hdd
    rw [entryStep_markDead]
    rcases Nat.eq_zero_or_pos r with hr0 | hrpos
    · have hcond : ¬ (s.refcount % 32768 > 0) := by omega
      rw [if_neg hcond]
      refine ⟨0, by omega, ?_, ?_⟩
      · intro hcontra
        dsimp only at hcontra
        exact absurd hcontra (by simp)
      · intro _
        dsimp only
        refine ⟨by omega, hul, ?_, ?_⟩
        · intro _
          omega
        · intro h0
          exact absurd rfl h0
    · have hcond : s.refcount % 32768 > 0 := by omega
      rw [if_pos hcond]
      refine ⟨r, hr, ?_, ?_⟩
      · intro hcontra
        dsimp only at hcontra
        exact absurd hcontra (by simp)
      · intro _
        dsimp only
        exact ⟨by omega, hul, by omega, fun _ => hf0⟩

/-- The invariant holds after any valid history of operations. -/
lemma entryInv_runOps (ops : List EntryOp) (s : EntryState)
    (hs : EntryInv s) (hv : validFrom s ops = true) : EntryInv (runOps s ops) := by
  induction ops generalizing s with
  | nil => exact hs
  | cons op ops ih =>
    simp only [validFrom, Bool.and_eq_true] at hv
    exact ih (entryStep s op) (entryInv_step s op hs hv.1) hv.2

/-- C3: along every valid sequential history of get, release, unlink
(remove or replace) and markDead operations on one entry, the entry's
memory is freed at most once, and it has been freed exactly when the alive
bit is clear (markDead ran after the unlink) and the 15-bit reader count
is zero, i.e. when the whole refcount word is zero; release frees at the
decrement that takes the word to zero and markDead frees when it reads
zero readers after clearing the alive bit, as the entryStep definition
states. -/
theorem C3_free_exactly_once (g : Bool) (ops : List EntryOp)
    (hv : validFrom (initialEntry g) ops = true) :
    (runOps (initialEntry g) ops).freedCount ≤ 1 ∧
    ((runOps (initialEntry g) ops).freedCount = 1 ↔
      (runOps (initialEntry g) ops).deadDone = true ∧
        (runOps (initialEntry g) ops).refcount = 0) := by
  obtain ⟨r, hr, hinvf, hinvt⟩ :=
    entryInv_runOps ops (initialEntry g) (entryInv_initial g) hv
  cases hdd : (runOps (initialEntry g) ops).deadDone with
  | false =>
    obtain ⟨hrc, hf0⟩ := hinvf hdd
    refine ⟨by omega, ?_⟩
    constructor
    · intro h1
      omega
    · rintro ⟨hcc, -⟩
      exact absurd hcc (by simp)
  | true =>
    obtain ⟨hrc, hul, hf1, hf0⟩ := hinvt hdd
    rcases Nat.eq_zero_or_pos r with hr0 | hrpos
    · have hfd := hf1 hr0
      refine ⟨by omega, ?_⟩
      constructor
      · intro _
        exact ⟨rfl, by omega⟩
      · intro _
        exact hfd
    · have hfd := hf0 (by omega)
      refine ⟨by omega, ?_⟩
      constructor
      · intro h1
        omega
      · rintro ⟨-, h0⟩
        omega

/-- C3 witness: the history get, unlink, markDead, release is valid from a
fresh entry; it frees the entry exactly once and leaves the word at
zero with the alive bit clear. -/
theorem C3_free_exactly_once_witness :
    validFrom (initialEntry false)
        [EntryOp.get, EntryOp.unlink, EntryOp.markDead, EntryOp.release] = true ∧
    ((runOps (initialEntry false)
        [EntryOp.get, EntryOp.unlink, EntryOp.markDead, EntryOp.release]).freedCount ≤ 1 ∧
      ((runOps (initialEntry false)
          [EntryOp.get, EntryOp.unlink, EntryOp.markDead, EntryOp.release]).freedCount = 1 ↔
        (runOps (initialEntry false)
            [EntryOp.get, EntryOp.unlink, EntryOp.markDead, EntryOp.release]).deadDone = true ∧
          (runOps (initialEntry false)
              [EntryOp.get, EntryOp.unlink, EntryOp.markDead, EntryOp.release]).refcount = 0)) :=
  ⟨by decide, C3_free_exactly_once false
      [EntryOp.get, EntryOp.unlink, EntryOp.markDead, EntryOp.release] (by decide)⟩

/-- Behaviour of the send loop from any intermediate progress point: a
GOOD return means exactly the buffer length was written and the buffer was
consumed with the connection left open, the error return means close was
called and the buffer consumed, and a trace of only retriable errors and
short writes never produces the error return. -/
lemma socket_write_loop_spec (len : Nat) (sends : List SendResult) :
    ∀ nW : Nat, validSendTrace len nW sends = true → nW ≤ len →
    (((socket_write_loop len nW sends).outcome = WriteOutcome.good →
        (socket_write_loop len nW sends).written = len ∧
        (socket_write_loop len nW sends).bufFreed = true ∧
        (socket_write_loop len nW sends).stateClosed = false) ∧
      ((socket_write_loop len nW sends).outcome = WriteOutcome.closed →
        (socket_write_loop len nW sends).stateClosed = true ∧
        (socket_write_loop len nW sends).bufFreed = true) ∧
      (retriableOnly sends = true →
        (socket_write_loop len nW sends).outcome ≠ WriteOutcome.closed)) := by
  induction sends with
  | nil =>
    intro nW _ _
    refine ⟨?_, ?_, ?_⟩
    · intro h
      exact absurd h (by simp [socket_write_loop])
    · intro h
      exact absurd h (by simp [socket_write_loop])
    · intro _
      simp [socket_write_loop]
  | cons sr rest ih =>
    intro nW hv hle
    cases sr with
    | sent n =>
      simp only [validSendTrace, Bool.and_eq_true, decide_eq_true_eq] at hv
      obtain ⟨hn, hvrest⟩ := hv
      simp only [socket_write_loop]
      by_cases hlt : nW + n < len
      · rw [if_pos hlt]
        have := ih (nW + n) hvrest (by omega)
        refine ⟨this.1, this.2.1, ?_⟩
        intro hro
        exact this.2.2 hro
      · rw [if_neg hlt]
        refine ⟨?_, ?_, ?_⟩
        · intro _
          refine ⟨?_, rfl, rfl⟩
          show nW + n = len
          omega
        · intro h
          exact absurd h (by simp)
        · intro _
          simp
    | err e =>
      simp only [validSendTrace] at hv
      simp only [socket_write_loop]
      by_cases hretry : e = Errno.EINTR ∨ e = Errno.EAGAIN
      · have hcond : (e == Errno.EINTR || e == Errno.EAGAIN) = true := by
          rcases hretry with h | h <;> simp [h]
        rw [if_pos hcond]
        have := ih nW hv hle
        refine ⟨this.1, this.2.1, ?_⟩
        intro hro
        simp only [retriableOnly, Bool.and_eq_true] at hro
        exact this.2.2 hro.2
      · have hcond : ¬ ((e == Errno.EINTR || e == Errno.EAGAIN) = true) := by
          intro h
          rcases Bool.or_eq_true_iff.mp h with h1 | h1 <;>
            exact hretry (by first
              | exact Or.inl (by exact beq_iff_eq.mp h1)
              | exact Or.inr (by exact beq_iff_eq.mp h1))
        rw [if_neg hcond]
        refine ⟨?_, ?_, ?_⟩
        · intro h
          exact absurd h (by simp)
        · intro _
          exact ⟨rfl, rfl⟩
        · intro hro
          simp only [retriableOnly, Bool.and_eq_true] at hro
          exact absurd hro.1 (by simpa using hcond)

/-- C8: socket_write loops across short writes, retrying on EINTR and
EAGAIN, until exactly the buffer length has been written, in which case it
returns GOOD with the buffer consumed and the connection untouched;
any other errno makes it call close (the state becomes CLOSED), consume
the buffer and return BADCONNECTIONCLOSED; a run seeing only short writes
and retriable errors never reaches the error return. -/
theorem C8_socket_write (len : Nat) (sends : List SendResult)
    (hv : validSendTrace len 0 sends = true) :
    ((socket_write len sends).outcome = WriteOutcome.good →
      (socket_write len sends).written = len ∧
      (socket_write len sends).bufFreed = true ∧
      (socket_write len sends).stateClosed = false) ∧
    ((socket_write len sends).outcome = WriteOutcome.closed →
      (socket_write len sends).stateClosed = true ∧
      (socket_write len sends).bufFreed = true) ∧
    (retriableOnly sends = true →
      (socket_write len sends).outcome ≠ WriteOutcome.closed) :=
  socket_write_loop_spec len sends 0 hv (Nat.zero_le len)

/-- C8 witness: a 4-byte buffer sent across two short writes with an EINTR
and an EAGAIN in between is fully written, the buffer consumed and the
connection left open. -/
theorem C8_socket_write_witness :
    validSendTrace 4 0
        [SendResult.err Errno.EINTR, SendResult.sent 2,
          SendResult.err Errno.EAGAIN, SendResult.sent 2] = true ∧
    (((socket_write 4 [SendResult.err Errno.EINTR, SendResult.sent 2,
          SendResult.err Errno.EAGAIN, SendResult.sent 2]).outcome = WriteOutcome.good →
        (socket_write 4 [SendResult.err Errno.EINTR, SendResult.sent 2,
          SendResult.err Errno.EAGAIN, SendResult.sent 2]).written = 4 ∧
        (socket_write 4 [SendResult.err Errno.EINTR, SendResult.sent 2,
          SendResult.err Errno.EAGAIN, SendResult.sent 2]).bufFreed = true ∧
        (socket_write 4 [SendResult.err Errno.EINTR, SendResult.sent 2,
          SendResult.err Errno.EAGAIN, SendResult.sent 2]).stateClosed = false) ∧
      ((socket_write 4 [SendResult.err Errno.EINTR, SendResult.sent 2,
          SendResult.err Errno.EAGAIN, SendResult.sent 2]).outcome = WriteOutcome.closed →
        (socket_write 4 [SendResult.err Errno.EINTR, SendResult.sent 2,
          SendResult.err Errno.EAGAIN, SendResult.sent 2]).stateClosed = true ∧
        (socket_write 4 [SendResult.err Errno.EINTR, SendResult.sent 2,
          SendResult.err Errno.EAGAIN, SendResult.sent 2]).bufFreed = true) ∧
      (retriableOnly [SendResult.err Errno.EINTR, SendResult.sent 2,
          SendResult.err Errno.EAGAIN, SendResult.sent 2] = true →
        (socket_write 4 [SendResult.err Errno.EINTR, SendResult.sent 2,
          SendResult.err Errno.EAGAIN, SendResult.sent 2]).outcome ≠ WriteOutcome.closed)) :=
  ⟨by decide, C8_socket_write 4
      [SendResult.err Errno.EINTR, SendResult.sent 2,
        SendResult.err Errno.EAGAIN, SendResult.sent 2] (by decide)⟩

/-- Insert with a failed entry allocation returns BADOUTOFMEMORY and
changes nothing. -/
lemma insert_allocFail (table : List UA_Node) (node : UA_Node) (g : Bool) (fuel : Nat) :
    UA_NodeStore_insert table node g false fuel
      = some ⟨UA_StatusCode.BADOUTOFMEMORY, table, OutPtr.untouched, false, none, []⟩ := rfl

/-- Unfolding equation of insert for a non-Null NodeId. -/
lemma insert_nonnull_eq (table : List UA_Node) (node : UA_Node) (g : Bool) (fuel : Nat)
    (hnn : UA_NodeId_isNull node.nodeId = false) :
    UA_NodeStore_insert table node g true fuel
      = (if (tableLookup table (LookupKey.nodeIdPtr node.nodeId)).isSome then
          some ⟨UA_StatusCode.BADNODEIDEXISTS, table, OutPtr.untouched, false, none, []⟩
        else
          some ⟨UA_StatusCode.GOOD, table ++ [node],
            (if g then OutPtr.managed node else OutPtr.null), true, some node, []⟩) := by
  unfold UA_NodeStore_insert
  rw [hnn]
  rfl

/-- Unfolding equation of insert for the Null NodeId. -/
lemma insert_null_eq (table : List UA_Node) (node : UA_Node) (g : Bool) (fuel : Nat)
    (hnull : UA_NodeId_isNull node.nodeId = true) :
    UA_NodeStore_insert table node g true fuel
      = (match probeNullId table (table.length + 1) fuel ((table.length + 1) % UINT32_MOD) with
        | none => none
        | some num =>
          some ⟨UA_StatusCode.GOOD,
            table ++ [{ node with nodeId := ⟨1, UA_NodeIdIdentifier.numeric num⟩ }],
            (if g then
              OutPtr.managed { node with nodeId := ⟨1, UA_NodeIdIdentifier.numeric num⟩ }
            else OutPtr.null),
            true, some { node with nodeId := ⟨1, UA_NodeIdIdentifier.numeric num⟩ }, []⟩) := by
  unfold UA_NodeStore_insert
  rw [hnull]
  rfl

/-- Replace with a failed entry allocation returns BADOUTOFMEMORY and
changes nothing. -/
lemma replace_allocFail (table : List UA_Node) (node : UA_Node) (g : Bool) :
    UA_NodeStore_replace table node g false
      = ⟨UA_StatusCode.BADOUTOFMEMORY, table, OutPtr.untouched, false, none, []⟩ := rfl

/-- Unfolding equation of replace with a live allocation. -/
lemma replace_eq (table : List UA_Node) (node : UA_Node) (g : Bool) :
    UA_NodeStore_replace table node g true
      = (match tableLookup table (LookupKey.nodeIdPtr node.nodeId) with
        | some pred =>
          ⟨UA_StatusCode.GOOD, replaceFirst table node.nodeId node,
            (if g then OutPtr.managed node else OutPtr.null), true, some node, [pred]⟩
        | none =>
          ⟨UA_StatusCode.BADNODEIDUNKNOWN, table, OutPtr.untouched, false, none, []⟩) := rfl

/-- Kind test of a NodeId identifier. -/
def isNumericId (n : UA_NodeId) : Bool :=
  match n.identifier with
  | UA_NodeIdIdentifier.numeric _ => true
  | _ => false

/-- The compare callback on a proper pointer-to-NodeId key is just
UA_NodeId_equal. -/
lemma compare_ptr (entryId k : UA_NodeId) :
    compare entryId (LookupKey.nodeIdPtr k) = UA_NodeId_equal entryId k := rfl

/-- A numeric identifier returned by the probing loop collides with no
entry of the table. -/
lemma probeNullId_fresh (table : List UA_Node) (identifier : Nat) :
    ∀ (fuel cur num : Nat), probeNullId table identifier fuel cur = some num →
      table.any
        (fun e => UA_NodeId_equal e.nodeId ⟨1, UA_NodeIdIdentifier.numeric num⟩) = false := by
  intro fuel
  induction fuel with
  | zero =>
    intro cur num h
    exact absurd h (by simp [probeNullId])
  | succ fuel ih =>
    intro cur num h
    simp only [probeNullId] at h
    by_cases hc : table.any
        (fun e => UA_NodeId_equal e.nodeId ⟨1, UA_NodeIdIdentifier.numeric cur⟩) = true
    · rw [if_pos hc] at h
      exact ih _ num h
    · rw [if_neg hc] at h
      obtain rfl := Option.some.inj h
      simpa using hc

/-- A lookup skips a left part of the table in which the key matched
nothing. -/
lemma tableLookup_append_none (t1 t2 : List UA_Node) (key : LookupKey)
    (h : tableLookup t1 key = none) :
    tableLookup (t1 ++ t2) key = tableLookup t2 key := by
  induction t1 with
  | nil => rfl
  | cons e rest ih =>
    by_cases hpe : compare e.nodeId key = true
    · exfalso
      have : tableLookup (e :: rest) key = some e := by
        simp [tableLookup, List.find?_cons_of_pos, hpe]
      rw [h] at this
      cases this
    · have hpe' : compare e.nodeId key = false := by simpa using hpe
      have h' : tableLookup rest key = none := by
        simpa [tableLookup, List.find?_cons_of_neg, hpe'] using h
      have step : tableLookup ((e :: rest) ++ t2) key = tableLookup (rest ++ t2) key := by
        simp [tableLookup, List.find?_cons_of_neg, hpe']
      rw [step]
      exact ih h'

/-- After swapping a found predecessor for a fresh node carrying the same
id, a get of that id returns the fresh node. -/
lemma get_replaceFirst (table : List UA_Node) (k : UA_NodeId) (fresh : UA_Node)
    (hfk : fresh.nodeId = k) :
    ∀ pred : UA_Node, tableLookup table (LookupKey.nodeIdPtr k) = some pred →
      UA_NodeStore_get (replaceFirst table k fresh) k = some fresh := by
  induction table with
  | nil =>
    intro pred h
    exact absurd h (by simp [tableLookup])
  | cons e rest ih =>
    intro pred h
    by_cases hpe : UA_NodeId_equal e.nodeId k = true
    · have hrf : replaceFirst (e :: rest) k fresh = fresh :: rest := by
        simp [replaceFirst, hpe]
      rw [hrf]
      have hfc : compare fresh.nodeId (LookupKey.nodeIdPtr k) = true := by
        simp [compare_ptr, UA_NodeId_equal, hfk]
      simp [UA_NodeStore_get, tableLookup, List.find?_cons_of_pos, hfc]
    · have hpe' : UA_NodeId_equal e.nodeId k = false := by simpa using hpe
      have hrf : replaceFirst (e :: rest) k fresh = e :: replaceFirst rest k fresh := by
        simp [replaceFirst, hpe']
      rw [hrf]
      have hpc : compare e.nodeId (LookupKey.nodeIdPtr k) = false := hpe'
      have h' : tableLookup rest (LookupKey.nodeIdPtr k) = some pred := by
        simpa [tableLookup, List.find?_cons_of_neg, hpc] using h
      have := ih pred h'
      simpa [UA_NodeStore_get, tableLookup, List.find?_cons_of_neg, hpc] using this

/-- C5: a terminating insert fails only with BADNODEIDEXISTS (a reachable
entry with an equal non-Null NodeId already exists) or BADOUTOFMEMORY (the
entry allocation failed); on every failure the store is unchanged and the
fresh entry is not published. -/
theorem C5_insert_error_set (table : List UA_Node) (node : UA_Node)
    (g allocOk : Bool) (fuel : Nat) (r : InsertResult)
    (h : UA_NodeStore_insert table node g allocOk fuel = some r) :
    (r.status = UA_StatusCode.GOOD ∨ r.status = UA_StatusCode.BADNODEIDEXISTS ∨
      r.status = UA_StatusCode.BADOUTOFMEMORY) ∧
    (r.status = UA_StatusCode.BADNODEIDEXISTS →
      UA_NodeId_isNull node.nodeId = false ∧
      (tableLookup table (LookupKey.nodeIdPtr node.nodeId)).isSome = true) ∧
    (r.status = UA_StatusCode.BADOUTOFMEMORY → allocOk = false) ∧
    (r.status ≠ UA_StatusCode.GOOD → r.store = table ∧ r.published = none) := by
  cases allocOk with
  | false =>
    rw [insert_allocFail] at h
    obtain rfl := Option.some.inj h
    refine ⟨Or.inr (Or.inr rfl), ?_, ?_, ?_⟩
    · intro hx
      simp at hx
    · intro _
      rfl
    · intro _
      exact ⟨rfl, rfl⟩
  | true =>
    cases hnn : UA_NodeId_isNull node.nodeId with
    | false =>
      rw [insert_nonnull_eq table node g fuel hnn] at h
      by_cases hs : (tableLookup table (LookupKey.nodeIdPtr node.nodeId)).isSome = true
      · rw [if_pos hs] at h
        obtain rfl := Option.some.inj h
        refine ⟨Or.inr (Or.inl rfl), ?_, ?_, ?_⟩
        · intro _
          exact ⟨rfl, hs⟩
        · intro hx
          simp at hx
        · intro _
          exact ⟨rfl, rfl⟩
      · rw [if_neg hs] at h
        obtain rfl := Option.some.inj h
        refine ⟨Or.inl rfl, ?_, ?_, ?_⟩
        · intro hx
          simp at hx
        · intro hx
          simp at hx
        · intro hx
          exact absurd rfl hx
    | true =>
      rw [insert_null_eq table node g fuel hnn] at h
      cases hp : probeNullId table (table.length + 1) fuel ((table.length + 1) % UINT32_MOD) with
      | none =>
        rw [hp] at h
        cases h
      | some num =>
        rw [hp] at h
        obtain rfl := Option.some.inj h
        refine ⟨Or.inl rfl, ?_, ?_, ?_⟩
        · intro hx
          simp at hx
        · intro hx
          simp at hx
        · intro hx
          exact absurd rfl hx

/-- C5 witness: inserting NodeId (1, numeric 5) into the empty store
succeeds, so the statuses and failure clauses hold at this input. -/
theorem C5_insert_error_set_witness :
    UA_NodeStore_insert [] ⟨⟨1, UA_NodeIdIdentifier.numeric 5⟩, UA_NodeClass.OBJECT, 0⟩
        false true 1
      = some ⟨UA_StatusCode.GOOD,
          [⟨⟨1, UA_NodeIdIdentifier.numeric 5⟩, UA_NodeClass.OBJECT, 0⟩],
          OutPtr.null, true,
          some ⟨⟨1, UA_NodeIdIdentifier.numeric 5⟩, UA_NodeClass.OBJECT, 0⟩, []⟩ ∧
    (((⟨UA_StatusCode.GOOD,
          [⟨⟨1, UA_NodeIdIdentifier.numeric 5⟩, UA_NodeClass.OBJECT, 0⟩],
          OutPtr.null, true,
          some ⟨⟨1, UA_NodeIdIdentifier.numeric 5⟩, UA_NodeClass.OBJECT, 0⟩, []⟩ : InsertResult).status
            = UA_StatusCode.GOOD ∨
        (⟨UA_StatusCode.GOOD,
          [⟨⟨1, UA_NodeIdIdentifier.numeric 5⟩, UA_NodeClass.OBJECT, 0⟩],
          OutPtr.null, true,
          some ⟨⟨1, UA_NodeIdIdentifier.numeric 5⟩, UA_NodeClass.OBJECT, 0⟩, []⟩ : InsertResult).status
            = UA_StatusCode.BADNODEIDEXISTS ∨
        (⟨UA_StatusCode.GOOD,
          [⟨⟨1, UA_NodeIdIdentifier.numeric 5⟩, UA_NodeClass.OBJECT, 0⟩],
          OutPtr.null, true,
          some ⟨⟨1, UA_NodeIdIdentifier.numeric 5⟩, UA_NodeClass.OBJECT, 0⟩, []⟩ : InsertResult).status
            = UA_StatusCode.BADOUTOFMEMORY)) := by
  constructor
  · decide
  · exact (C5_insert_error_set []
      ⟨⟨1, UA_NodeIdIdentifier.numeric 5⟩, UA_NodeClass.OBJECT, 0⟩ false true 1
      ⟨UA_StatusCode.GOOD,
        [⟨⟨1, UA_NodeIdIdentifier.numeric 5⟩, UA_NodeClass.OBJECT, 0⟩],
        OutPtr.null, true,
        some ⟨⟨1, UA_NodeIdIdentifier.numeric 5⟩, UA_NodeClass.OBJECT, 0⟩, []⟩
      (by decide)).1

/-- C4: inserting a node carrying the Null NodeId publishes an id with
namespaceIndex 1 and numeric kind (synthesized from the node count and
advanced by the multiplicative probing step until unique), and two
successful Null-id inserts in a row publish distinct ids. -/
theorem C4_null_id_insert (table : List UA_Node) (n1 n2 : UA_Node) (g1 g2 : Bool)
    (f1 f2 : Nat) (r1 r2 : InsertResult) (p1 p2 : UA_Node)
    (h1null : UA_NodeId_isNull n1.nodeId = true)
    (h2null : UA_NodeId_isNull n2.nodeId = true)
    (h1 : UA_NodeStore_insert table n1 g1 true f1 = some r1)
    (h2 : UA_NodeStore_insert r1.store n2 g2 true f2 = some r2)
    (hp1 : r1.published = some p1) (hp2 : r2.published = some p2) :
    p1.nodeId.namespaceIndex = 1 ∧ p2.nodeId.namespaceIndex = 1 ∧
    isNumericId p1.nodeId = true ∧ isNumericId p2.nodeId = true ∧
    p1.nodeId ≠ p2.nodeId := by
  rw [insert_null_eq table n1 g1 f1 h1null] at h1
  cases hq1 : probeNullId table (table.length + 1) f1 ((table.length + 1) % UINT32_MOD) with
  | none =>
    rw [hq1] at h1
    cases h1
  | some num1 =>
    rw [hq1] at h1
    obtain rfl := Option.some.inj h1
    obtain rfl : p1 = { n1 with nodeId := ⟨1, UA_NodeIdIdentifier.numeric num1⟩ } :=
      (Option.some.inj hp1).symm
    dsimp only at h2
    rw [insert_null_eq _ n2 g2 f2 h2null] at h2
    cases hq2 : probeNullId
        (table ++ [{ n1 with nodeId := ⟨1, UA_NodeIdIdentifier.numeric num1⟩ }])
        ((table ++ [{ n1 with nodeId := ⟨1, UA_NodeIdIdentifier.numeric num1⟩ }]).length + 1)
        f2
        (((table ++ [{ n1 with nodeId := ⟨1, UA_NodeIdIdentifier.numeric num1⟩ }]).length + 1)
          % UINT32_MOD) with
    | none =>
      rw [hq2] at h2
      cases h2
    | some num2 =>
      rw [hq2] at h2
      obtain rfl := Option.some.inj h2
      obtain rfl : p2 = { n2 with nodeId := ⟨1, UA_NodeIdIdentifier.numeric num2⟩ } :=
        (Option.some.inj hp2).symm
      have hfresh := probeNullId_fresh
        (table ++ [{ n1 with nodeId := ⟨1, UA_NodeIdIdentifier.numeric num1⟩ }])
        ((table ++ [{ n1 with nodeId := ⟨1, UA_NodeIdIdentifier.numeric num1⟩ }]).length + 1)
        f2 _ num2 hq2
      rw [List.any_append] at hfresh
      have hone :
          ([{ n1 with nodeId := ⟨1, UA_NodeIdIdentifier.numeric num1⟩ }].any
            (fun e => UA_NodeId_equal e.nodeId ⟨1, UA_NodeIdIdentifier.numeric num2⟩)) = false :=
        (Bool.or_eq_false_iff.mp hfresh).2
      have hne : UA_NodeId_equal
          ({ n1 with nodeId := ⟨1, UA_NodeIdIdentifier.numeric num1⟩ } : UA_Node).nodeId
          ⟨1, UA_NodeIdIdentifier.numeric num2⟩ = false := by
        simpa using hone
      refine ⟨rfl, rfl, rfl, rfl, ?_⟩
      intro hcc
      have hnum : num1 = num2 := by
        have heq : UA_NodeIdIdentifier.numeric num1 = UA_NodeIdIdentifier.numeric num2 :=
          congrArg UA_NodeId.identifier hcc
        injection heq
      rw [hnum] at hne
      simp [UA_NodeId_equal] at hne

/-- Concrete node with the Null NodeId used by the C4 witness. -/
def nullIdNode : UA_Node := ⟨⟨0, UA_NodeIdIdentifier.numeric 0⟩, UA_NodeClass.OBJECT, 0⟩

/-- Result of the first C4 witness insert. -/
def nullInsertR1 : InsertResult :=
  ⟨UA_StatusCode.GOOD, [⟨⟨1, UA_NodeIdIdentifier.numeric 1⟩, UA_NodeClass.OBJECT, 0⟩],
    OutPtr.null, true, some ⟨⟨1, UA_NodeIdIdentifier.numeric 1⟩, UA_NodeClass.OBJECT, 0⟩, []⟩

/-- Result of the second C4 witness insert. -/
def nullInsertR2 : InsertResult :=
  ⟨UA_StatusCode.GOOD,
    [⟨⟨1, UA_NodeIdIdentifier.numeric 1⟩, UA_NodeClass.OBJECT, 0⟩,
      ⟨⟨1, UA_NodeIdIdentifier.numeric 2⟩, UA_NodeClass.OBJECT, 0⟩],
    OutPtr.null, true, some ⟨⟨1, UA_NodeIdIdentifier.numeric 2⟩, UA_NodeClass.OBJECT, 0⟩, []⟩

/-- C4 witness: two Null-id inserts into the empty store publish the ids
(1, numeric 1) and (1, numeric 2), which are distinct, in namespace 1 and
of numeric kind. -/
theorem C4_null_id_insert_witness :
    (UA_NodeId_isNull nullIdNode.nodeId = true ∧
      UA_NodeStore_insert [] nullIdNode false true 2 = some nullInsertR1 ∧
      UA_NodeStore_insert nullInsertR1.store nullIdNode false true 2 = some nullInsertR2 ∧
      nullInsertR1.published
        = some ⟨⟨1, UA_NodeIdIdentifier.numeric 1⟩, UA_NodeClass.OBJECT, 0⟩ ∧
      nullInsertR2.published
        = some ⟨⟨1, UA_NodeIdIdentifier.numeric 2⟩, UA_NodeClass.OBJECT, 0⟩) ∧
    ((⟨⟨1, UA_NodeIdIdentifier.numeric 1⟩, UA_NodeClass.OBJECT, 0⟩ : UA_Node).nodeId.namespaceIndex = 1 ∧
      (⟨⟨1, UA_NodeIdIdentifier.numeric 2⟩, UA_NodeClass.OBJECT, 0⟩ : UA_Node).nodeId.namespaceIndex = 1 ∧
      isNumericId (⟨⟨1, UA_NodeIdIdentifier.numeric 1⟩, UA_NodeClass.OBJECT, 0⟩ : UA_Node).nodeId = true ∧
      isNumericId (⟨⟨1, UA_NodeIdIdentifier.numeric 2⟩, UA_NodeClass.OBJECT, 0⟩ : UA_Node).nodeId = true ∧
      (⟨⟨1, UA_NodeIdIdentifier.numeric 1⟩, UA_NodeClass.OBJECT, 0⟩ : UA_Node).nodeId
        ≠ (⟨⟨1, UA_NodeIdIdentifier.numeric 2⟩, UA_NodeClass.OBJECT, 0⟩ : UA_Node).nodeId) :=
  ⟨by decide,
    C4_null_id_insert [] nullIdNode nullIdNode false false 2 2 nullInsertR1 nullInsertR2
      ⟨⟨1, UA_NodeIdIdentifier.numeric 1⟩, UA_NodeClass.OBJECT, 0⟩
      ⟨⟨1, UA_NodeIdIdentifier.numeric 2⟩, UA_NodeClass.OBJECT, 0⟩
      (by decide) (by decide) (by decide) (by decide) (by decide) (by decide)⟩

/-- C6: after an insert made NodeId k reachable with node v1, replace with
a node v2 carrying the same id succeeds, the next get of k returns v2, and
the predecessor v1 is handed to the reclamation queue; an entry whose
reader count is positive is not freed by markDead (a handle on v1 stays
valid until released); and replace on a store without a predecessor for
the id returns BADNODEIDUNKNOWN leaving the store unchanged. -/
theorem C6_replace_semantics (table : List UA_Node) (v1 v2 v3 : UA_Node)
    (g1 g2 g3 : Bool) (fuel : Nat) (r1 : InsertResult) (s : EntryState)
    (tableX : List UA_Node)
    (hnn : UA_NodeId_isNull v1.nodeId = false)
    (hk : v2.nodeId = v1.nodeId)
    (h1 : UA_NodeStore_insert table v1 g1 true fuel = some r1)
    (hgood : r1.status = UA_StatusCode.GOOD)
    (hreaders : 0 < s.refcount % 32768)
    (hmiss : tableLookup tableX (LookupKey.nodeIdPtr v3.nodeId) = none) :
    (UA_NodeStore_replace r1.store v2 g2 true).status = UA_StatusCode.GOOD ∧
    UA_NodeStore_get (UA_NodeStore_replace r1.store v2 g2 true).store v1.nodeId = some v2 ∧
    (UA_NodeStore_replace r1.store v2 g2 true).enqueuedDead = [v1] ∧
    (entryStep s EntryOp.markDead).freedCount = s.freedCount ∧
    UA_NodeStore_replace tableX v3 g3 true
      = ⟨UA_StatusCode.BADNODEIDUNKNOWN, tableX, OutPtr.untouched, false, none, []⟩ := by
  rw [insert_nonnull_eq table v1 g1 fuel hnn] at h1
  by_cases hs : (tableLookup table (LookupKey.nodeIdPtr v1.nodeId)).isSome = true
  · rw [if_pos hs] at h1
    obtain rfl := Option.some.inj h1
    simp at hgood
  · rw [if_neg hs] at h1
    obtain rfl := Option.some.inj h1
    have hmiss1 : tableLookup table (LookupKey.nodeIdPtr v1.nodeId) = none :=
      Option.not_isSome_iff_eq_none.mp (by simpa using hs)
    have hlook : tableLookup (table ++ [v1]) (LookupKey.nodeIdPtr v2.nodeId) = some v1 := by
      rw [hk, tableLookup_append_none table [v1] _ hmiss1]
      have hfc : compare v1.nodeId (LookupKey.nodeIdPtr v1.nodeId) = true := by
        simp [compare_ptr, UA_NodeId_equal]
      simp [tableLookup, List.find?_cons_of_pos, hfc]
    dsimp only
    rw [replace_eq (table ++ [v1]) v2 g2, hlook]
    refine ⟨rfl, ?_, rfl, ?_, ?_⟩
    · rw [← hk]
      exact get_replaceFirst (table ++ [v1]) v2.nodeId v2 rfl v1 hlook
    · rw [entryStep_markDead, if_pos hreaders]
    · rw [replace_eq tableX v3 g3, hmiss]

/-- First node of the C6 witness. -/
def c6v1 : UA_Node := ⟨⟨1, UA_NodeIdIdentifier.numeric 5⟩, UA_NodeClass.VARIABLE, 7⟩

/-- Replacement node of the C6 witness: same id, new payload. -/
def c6v2 : UA_Node := ⟨⟨1, UA_NodeIdIdentifier.numeric 5⟩, UA_NodeClass.VARIABLE, 8⟩

/-- An id absent from the empty store, for the C6 witness. -/
def c6v3 : UA_Node := ⟨⟨1, UA_NodeIdIdentifier.numeric 9⟩, UA_NodeClass.OBJECT, 0⟩

/-- Result of the C6 witness insert. -/
def c6r1 : InsertResult :=
  ⟨UA_StatusCode.GOOD, [c6v1], OutPtr.null, true, some c6v1, []⟩

/-- Entry state with the alive bit and one outstanding reader, for the C6
witness. -/
def c6s : EntryState := ⟨32769, false, false, 0⟩

/-- C6 witness: concrete insert of v1 then replace by v2 at the same id;
get returns v2, v1 goes to the reclamation queue, markDead does not free
under one outstanding reader, and replace of an unknown id fails without
change. -/
theorem C6_replace_semantics_witness :
    (UA_NodeId_isNull c6v1.nodeId = false ∧
      c6v2.nodeId = c6v1.nodeId ∧
      UA_NodeStore_insert [] c6v1 false true 1 = some c6r1 ∧
      c6r1.status = UA_StatusCode.GOOD ∧
      0 < c6s.refcount % 32768 ∧
      tableLookup [] (LookupKey.nodeIdPtr c6v3.nodeId) = none) ∧
    ((UA_NodeStore_replace c6r1.store c6v2 false true).status = UA_StatusCode.GOOD ∧
      UA_NodeStore_get (UA_NodeStore_replace c6r1.store c6v2 false true).store c6v1.nodeId
        = some c6v2 ∧
      (UA_NodeStore_replace c6r1.store c6v2 false true).enqueuedDead = [c6v1] ∧
      (entryStep c6s EntryOp.markDead).freedCount = c6s.freedCount ∧
      UA_NodeStore_replace [] c6v3 false true
        = ⟨UA_StatusCode.BADNODEIDUNKNOWN, [], OutPtr.untouched, false, none, []⟩) :=
  ⟨⟨by decide, by decide, by decide, by decide, by decide, by decide⟩,
    C6_replace_semantics [] c6v1 c6v2 c6v3 false false false 1 c6r1 c6s []
      (by decide) (by decide) (by decide) (by decide) (by decide) (by decide)⟩

/-- C10: a successful insert or replace frees the caller-supplied node and
sets the caller's in-out pointer to the store-managed copy when a managed
handle was requested, and to null otherwise; a failed insert or replace
leaves the caller's node untouched. -/
theorem C10_node_ownership (table : List UA_Node) (node : UA_Node) (g allocOk : Bool)
    (fuel : Nat) (r r2 : InsertResult)
    (h : UA_NodeStore_insert table node g allocOk fuel = some r)
    (h2 : UA_NodeStore_replace table node g allocOk = r2) :
    (r.status = UA_StatusCode.GOOD → r.callerFreed = true ∧ r.published.isSome = true ∧
      r.out = (if g then OutPtr.managed (r.published.getD node) else OutPtr.null)) ∧
    (r.status ≠ UA_StatusCode.GOOD → r.callerFreed = false ∧ r.out = OutPtr.untouched) ∧
    (r2.status = UA_StatusCode.GOOD → r2.callerFreed = true ∧ r2.published.isSome = true ∧
      r2.out = (if g then OutPtr.managed (r2.published.getD node) else OutPtr.null)) ∧
    (r2.status ≠ UA_StatusCode.GOOD → r2.callerFreed = false ∧ r2.out = OutPtr.untouched) := by
  have hins : (r.status = UA_StatusCode.GOOD → r.callerFreed = true ∧
        r.published.isSome = true ∧
        r.out = (if g then OutPtr.managed (r.published.getD node) else OutPtr.null)) ∧
      (r.status ≠ UA_StatusCode.GOOD → r.callerFreed = false ∧ r.out = OutPtr.untouched) := by
    cases allocOk with
    | false =>
      rw [insert_allocFail] at h
      obtain rfl := Option.some.inj h
      exact ⟨fun hx => absurd hx (by simp), fun _ => ⟨rfl, rfl⟩⟩
    | true =>
      cases hnn : UA_NodeId_isNull node.nodeId with
      | false =>
        rw [insert_nonnull_eq table node g fuel hnn] at h
        by_cases hsx : (tableLookup table (LookupKey.nodeIdPtr node.nodeId)).isSome = true
        · rw [if_pos hsx] at h
          obtain rfl := Option.some.inj h
          exact ⟨fun hx => absurd hx (by simp), fun _ => ⟨rfl, rfl⟩⟩
        · rw [if_neg hsx] at h
          obtain rfl := Option.some.inj h
          exact ⟨fun _ => ⟨rfl, rfl, rfl⟩, fun hx => absurd rfl hx⟩
      | true =>
        rw [insert_null_eq table node g fuel hnn] at h
        cases hp : probeNullId table (table.length + 1) fuel
            ((table.length + 1) % UINT32_MOD) with
        | none =>
          rw [hp] at h
          cases h
        | some num =>
          rw [hp] at h
          obtain rfl := Option.some.inj h
          exact ⟨fun _ => ⟨rfl, rfl, rfl⟩, fun hx => absurd rfl hx⟩
  have hrep : (r2.status = UA_StatusCode.GOOD → r2.callerFreed = true ∧
        r2.published.isSome = true ∧
        r2.out = (if g then OutPtr.managed (r2.published.getD node) else OutPtr.null)) ∧
      (r2.status ≠ UA_StatusCode.GOOD → r2.callerFreed = false ∧ r2.out = OutPtr.untouched) := by
    cases allocOk with
    | false =>
      rw [replace_allocFail] at h2
      subst h2
      exact ⟨fun hx => absurd hx (by simp), fun _ => ⟨rfl, rfl⟩⟩
    | true =>
      rw [replace_eq] at h2
      cases hl : tableLookup table (LookupKey.nodeIdPtr node.nodeId) with
      | none =>
        rw [hl] at h2
        subst h2
        exact ⟨fun hx => absurd hx (by simp), fun _ => ⟨rfl, rfl⟩⟩
      | some pred =>
        rw [hl] at h2
        subst h2
        exact ⟨fun _ => ⟨rfl, rfl, rfl⟩, fun hx => absurd rfl hx⟩
  exact ⟨hins.1, hins.2, hrep.1, hrep.2⟩

/-- Node inserted by the C10 witness. -/
def sampleNode : UA_Node := ⟨⟨1, UA_NodeIdIdentifier.numeric 5⟩, UA_NodeClass.OBJECT, 0⟩

/-- Insert result of the C10 witness. -/
def sampleInsertR : InsertResult :=
  ⟨UA_StatusCode.GOOD, [sampleNode], OutPtr.null, true, some sampleNode, []⟩

/-- Replace result of the C10 witness (no predecessor on the empty
store). -/
def sampleReplaceR : InsertResult :=
  ⟨UA_StatusCode.BADNODEIDUNKNOWN, [], OutPtr.untouched, false, none, []⟩

/-- C10 witness: a successful insert into the empty store frees the
caller's node with a null out pointer; the failed replace on the same
store leaves the caller's node untouched. -/
theorem C10_node_ownership_witness :
    (UA_NodeStore_insert [] sampleNode false true 1 = some sampleInsertR ∧
      UA_NodeStore_replace [] sampleNode false true = sampleReplaceR) ∧
    ((sampleInsertR.status = UA_StatusCode.GOOD → sampleInsertR.callerFreed = true ∧
        sampleInsertR.published.isSome = true ∧
        sampleInsertR.out
          = (if false then OutPtr.managed (sampleInsertR.published.getD sampleNode)
            else OutPtr.null)) ∧
      (sampleInsertR.status ≠ UA_StatusCode.GOOD → sampleInsertR.callerFreed = false ∧
        sampleInsertR.out = OutPtr.untouched) ∧
      (sampleReplaceR.status = UA_StatusCode.GOOD → sampleReplaceR.callerFreed = true ∧
        sampleReplaceR.published.isSome = true ∧
        sampleReplaceR.out
          = (if false then OutPtr.managed (sampleReplaceR.published.getD sampleNode)
            else OutPtr.null)) ∧
      (sampleReplaceR.status ≠ UA_StatusCode.GOOD → sampleReplaceR.callerFreed = false ∧
        sampleReplaceR.out = OutPtr.untouched)) :=
  ⟨⟨by decide, by decide⟩,
    C10_node_ownership [] sampleNode false true 1 sampleInsertR sampleReplaceR
      (by decide) (by decide)⟩
